import Mathlib

/-
Verification development for the AMOS CUDA schedule generator / applier
(`python/tvm/auto_tensorize/tensorization_phases/scheduling.py`).

The Python source is shallowly embedded below.  Python lists become Lean
lists, Python dicts become association lists (`dictLookup` models the
dict comprehension semantics in which a later binding for the same key
overrides an earlier one, `assocGet`/`assocUpd` model ordinary dict
update and access with the newest binding first), Python exceptions
(IndexError, KeyError, AssertionError, RuntimeError) become
`Except String`, and numeric values that are floating point in the
source (costs, probabilities and uniform draws) become `ℚ` resp. `ℝ`
where `np.exp` is involved.

Helper modules of the repository that are imported by the scheduling
file but whose sources are not available (`utils.any_factor_split`,
`utils.remap_factors`, `utils.get_factor_lst`, `utils.get_directions`,
`search.Entry`, the random draws of `search.QLearningParamGenerator.get`)
are modelled from the specification; each such definition carries a
doc comment starting with `Modelled from the spec:`.
-/

set_option maxHeartbeats 1000000

namespace AMOS

/-! ## Python container helpers -/

/-- Python dict built by a comprehension or by successive insertions:
a later binding for the same key overrides an earlier one, so lookup
scans the tail (the later entries) first. -/
def dictLookup {α β : Type} [DecidableEq α] : List (α × β) → α → Option β
  | [], _ => none
  | (a, b) :: rest, k =>
    match dictLookup rest k with
    | some v => some v
    | none => if k = a then some b else none

/-- Association list access in which the newest binding is consed at the
head (used for the scheduling state dictionaries). -/
def assocGet {α β : Type} [DecidableEq α] : List (α × β) → α → Option β
  | [], _ => none
  | (a, b) :: rest, k => if k = a then some b else assocGet rest k

/-- Dict update `d[k] = v` for head-first association lists. -/
def assocUpd {α β : Type} (l : List (α × β)) (k : α) (v : β) : List (α × β) :=
  (k, v) :: l

/-- A Python list comprehension whose element expression may raise
(KeyError): produces the mapped list, or `none` as soon as one element
fails. -/
def pyListMap {α β : Type} (f : α → Option β) : List α → Option (List β)
  | [] => some []
  | a :: l =>
    match f a with
    | none => none
    | some b =>
      match pyListMap f l with
      | none => none
      | some bs => some (b :: bs)

/-- Python `l[i]` for a nonnegative index: raises IndexError when out of
range. -/
def pyGetIdx {α : Type} [Inhabited α] (l : List α) (i : ℕ) : Except String α :=
  if i < l.length then .ok (l.getD i default)
  else .error "IndexError: list index out of range"

/-- Python `l[-n]`: `l[-0]` is `l[0]`, otherwise the element `n` places
from the end; raises IndexError when out of range. -/
def pyGetNeg {α : Type} [Inhabited α] (l : List α) (n : ℕ) : Except String α :=
  if n = 0 then pyGetIdx l 0
  else if n ≤ l.length then .ok (l.getD (l.length - n) default)
  else .error "IndexError: list index out of range"

/-- Python slice `l[:-n]` where `n` may be `0` (in which case the result
is empty, as `l[:0]` is). -/
def pySliceToNeg {α : Type} (l : List α) (n : ℕ) : List α :=
  if n = 0 then [] else l.take (l.length - n)

/-- Python slice `l[-n:]` where `n` may be `0` (in which case the result
is the whole list, as `l[0:]` is... `l[-0:]` is `l[0:]` = `l`). -/
def pySliceFromNeg {α : Type} (l : List α) (n : ℕ) : List α :=
  if n = 0 then l else l.drop (l.length - n)

/-- Python `list(zip(*ls))` followed by taking each tuple as a list:
transposes, truncating to the shortest row; `zip(*[])` is `[]`. -/
def pyZipStar {α : Type} [Inhabited α] (ls : List (List α)) : List (List α) :=
  let m := ((ls.map List.length).min?).getD 0
  (List.range m).map (fun i => ls.map (fun l => l.getD i default))

/-! ## Target independent parameter generators (scheduling.py lines 82-157)

`SplitFactorGenerator`, `VectorizeLengthGenerator` and
`UnrollStepGenerator`.  The Q-table and the random draw mechanics live
in the missing `search` module and are not needed by the claims; the
choice spaces and the `map_to_hidden`/`map_from_hidden` maps are
embedded exactly. -/

/-- Modelled from the spec: `any_factor_split(extent, parts)` enumerates
all ordered factorizations of `extent` into `parts` positive factors
(spec section 4.1: "choice space = all ordered factorizations of a given
integer extent into k positive factors"). -/
def any_factor_split : ℕ → ℕ → List (List ℕ)
  | e, 0 => if e = 1 then [[]] else []
  | e, k + 1 =>
    ((List.range (e + 1)).filter (fun d => decide (d ≠ 0) && decide (e % d = 0))).flatMap
      (fun d => (any_factor_split (e / d) k).map (fun fs => d :: fs))

/-- Modelled from the spec: `remap_factors` collapses the factor values
occurring in the factorization list onto a dense index domain
(spec section 4.1: factorizations are "remapped to a dense index
domain").  Returns the remapped choices, the index-to-value map
`factor_map`, the dimension, and `sum_val` (the largest dense index). -/
def remap_factors (factor_list : List (List ℕ)) :
    List (List ℕ) × List (ℕ × ℕ) × ℕ × ℕ :=
  let values := factor_list.flatten.dedup
  let factor_map := (List.range values.length).zip values
  let value_to_index := values.zip (List.range values.length)
  (factor_list.map (fun fs => fs.map (fun f => (dictLookup value_to_index f).getD 0)),
   factor_map,
   (factor_list.headD []).length - 1,
   values.length - 1)

/-- Modelled from the spec: `get_directions(dim)` is the set of legal
unit moves between adjacent dense-index positions (one axis incremented
and a complementary axis decremented), plus the zero move. -/
def get_directions (dim : ℕ) : List (List ℤ) :=
  List.replicate dim (0 : ℤ) ::
    ((List.range dim).flatMap (fun i =>
      (List.range dim).filterMap (fun j =>
        if i = j then none
        else some ((List.range dim).map (fun t =>
          if t = i then (1 : ℤ) else if t = j then (-1 : ℤ) else 0)))))

/-- Modelled from the spec: `get_factor_lst(n)` lists the divisors of
`n` (spec section 4.1: "choice space = divisors of the maximum vector
width"). -/
def get_factor_lst (n : ℕ) : List ℕ :=
  (List.range (n + 1)).filter (fun d => decide (d ≠ 0) && decide (n % d = 0))

/-- `SplitFactorGenerator.__init__` (scheduling.py lines 82-90): the
fields built from `any_factor_split` and `remap_factors`.  `reverse_map`
is the dict comprehension over `factor_map.items()` with key and value
swapped. -/
structure SplitFactorGenerator where
  choices : List (List ℕ)
  factor_map : List (ℕ × ℕ)
  sum_val : ℕ
  directions : List (List ℤ)
  reverse_map : List (ℕ × ℕ)
deriving DecidableEq

def mkSplitFactorGenerator (extent parts : ℕ) : SplitFactorGenerator :=
  let factor_list := any_factor_split extent parts
  let r := remap_factors factor_list
  { choices := r.1
    factor_map := r.2.1
    sum_val := r.2.2.2
    directions := get_directions r.2.2.1
    reverse_map := r.2.1.map (fun xy => (xy.2, xy.1)) }

/-- `SplitFactorGenerator.move_towards_direction` (lines 92-99). -/
def SplitFactorGenerator.move_towards_direction
    (g : SplitFactorGenerator) (init : List ℤ) (d : List ℤ) : List ℤ :=
  let ret := (init.zip d).map (fun iv => iv.1 + iv.2)
  ret ++ [(g.sum_val : ℤ) - ret.sum]

/-- `SplitFactorGenerator.map_to_hidden` (lines 101-102): a KeyError for
a factor outside the map becomes `none`. -/
def SplitFactorGenerator.map_to_hidden
    (g : SplitFactorGenerator) (factors : List ℕ) : Option (List ℕ) :=
  pyListMap (dictLookup g.reverse_map) factors

/-- `SplitFactorGenerator.map_from_hidden` (lines 104-105). -/
def SplitFactorGenerator.map_from_hidden
    (g : SplitFactorGenerator) (init : List ℕ) : Option (List ℕ) :=
  pyListMap (dictLookup g.factor_map) init

/-- `SplitFactorGenerator.valid` (lines 107-111). -/
def SplitFactorGenerator.valid (g : SplitFactorGenerator) (init : List ℤ) : Bool :=
  init.all (fun v => decide (0 ≤ v) && decide (v ≤ (g.sum_val : ℤ)))

/-- `VectorizeLengthGenerator.__init__` (lines 114-121); the maximum
vector width `get_vector_length(target, dtype)` lives in the missing
`target` module and is taken as a parameter. -/
structure VectorizeLengthGenerator where
  lengths : List ℕ
  choices : List ℕ
  length_map : List (ℕ × ℕ)
  reverse_map : List (ℕ × ℕ)
  directions : List ℤ
deriving DecidableEq

def mkVectorizeLengthGenerator (vectorWidth : ℕ) : VectorizeLengthGenerator :=
  let lengths := get_factor_lst vectorWidth
  let choices := List.range lengths.length
  { lengths := lengths
    choices := choices
    length_map := choices.zip lengths
    reverse_map := lengths.zip choices
    directions := [0, 1, -1] }

/-- `VectorizeLengthGenerator.valid` (lines 127-128). -/
def VectorizeLengthGenerator.valid (g : VectorizeLengthGenerator) (init : ℤ) : Bool :=
  decide (0 ≤ init) && decide (init < (g.lengths.length : ℤ))

/-- `VectorizeLengthGenerator.map_to_hidden` (lines 130-131). -/
def VectorizeLengthGenerator.map_to_hidden
    (g : VectorizeLengthGenerator) (length : ℕ) : Option ℕ :=
  dictLookup g.reverse_map length

/-- `VectorizeLengthGenerator.map_from_hidden` (lines 133-134). -/
def VectorizeLengthGenerator.map_from_hidden
    (g : VectorizeLengthGenerator) (init : ℕ) : Option ℕ :=
  dictLookup g.length_map init

/-- `UnrollStepGenerator.__init__` (lines 137-144). -/
structure UnrollStepGenerator where
  steps : List ℕ
  choices : List ℕ
  length_map : List (ℕ × ℕ)
  reverse_map : List (ℕ × ℕ)
  directions : List ℤ
deriving DecidableEq

def mkUnrollStepGenerator (steps : List ℕ) : UnrollStepGenerator :=
  let choices := List.range steps.length
  { steps := steps
    choices := choices
    length_map := choices.zip steps
    reverse_map := steps.zip choices
    directions := [0, 1, -1] }

/-- `UnrollStepGenerator.map_to_hidden` (lines 153-154). -/
def UnrollStepGenerator.map_to_hidden
    (g : UnrollStepGenerator) (length : ℕ) : Option ℕ :=
  dictLookup g.reverse_map length

/-- `UnrollStepGenerator.map_from_hidden` (lines 156-157). -/
def UnrollStepGenerator.map_from_hidden
    (g : UnrollStepGenerator) (init : ℕ) : Option ℕ :=
  dictLookup g.length_map init

/-! ## Params (scheduling.py lines 29-64)

Each component of a `Params` record is the return value of one
sub-generator `get` call: a pair of the visible choice and the direction
that produced it (`hint=entry.record.vectorize[0]` and
`gen.feedback(*factors, value)` in the source fix this shape).  Split
components carry a factor list and a multi-dimensional direction;
vectorize and unroll components carry a single value and a scalar
direction.  The fields that `empty_params` sets to Python `None` are
`Option`s. -/

structure Params where
  vectorize : Option (ℕ × ℤ)
  spatial_factors : List (List ℕ × List ℤ)
  reduce_factors : List (List ℕ × List ℤ)
  last_factors : List (List ℕ × List ℤ)
  output_unroll_step : Option (ℕ × ℤ)
  last_unroll_step : Option (ℕ × ℤ)
deriving DecidableEq, Inhabited

/-- The flat key-value structure produced by `Params.to_json`
(lines 40-49): a dict with the six fixed keys. -/
structure ParamsJson where
  vectorize : Option (ℕ × ℤ)
  spatial_factors : List (List ℕ × List ℤ)
  reduce_factors : List (List ℕ × List ℤ)
  last_factors : List (List ℕ × List ℤ)
  output_unroll_step : Option (ℕ × ℤ)
  last_unroll_step : Option (ℕ × ℤ)
deriving DecidableEq

/-- `Params.to_json` (lines 40-49). -/
def Params.to_json (p : Params) : ParamsJson :=
  { vectorize := p.vectorize
    spatial_factors := p.spatial_factors
    reduce_factors := p.reduce_factors
    last_factors := p.last_factors
    output_unroll_step := p.output_unroll_step
    last_unroll_step := p.last_unroll_step }

/-- `Params.from_json` (lines 51-57): overwrites every field of `self`
from the six keys of `obj` and returns the resulting record. -/
def Params.from_json (_self : Params) (obj : ParamsJson) : Params :=
  { vectorize := obj.vectorize
    spatial_factors := obj.spatial_factors
    reduce_factors := obj.reduce_factors
    last_factors := obj.last_factors
    output_unroll_step := obj.output_unroll_step
    last_unroll_step := obj.last_unroll_step }

/-- `empty_params` (lines 63-64). -/
def empty_params : Params :=
  { vectorize := none
    spatial_factors := []
    reduce_factors := []
    last_factors := []
    output_unroll_step := none
    last_unroll_step := none }

/-- `CUDAScheduleGenerator.record_from_json` (lines 389-396). -/
def record_from_json (obj : ParamsJson) : Params :=
  { vectorize := obj.vectorize
    spatial_factors := obj.spatial_factors
    reduce_factors := obj.reduce_factors
    last_factors := obj.last_factors
    output_unroll_step := obj.output_unroll_step
    last_unroll_step := obj.last_unroll_step }

/-! ## Search entries and the archive (search.Entry, not under src/) -/

/-- Modelled from the spec: `search.Entry` is a `(record, cost)` pair,
"totally ordered by cost descending for best-first retrieval (a
max-priority archive)"; with Python heapq (a min-heap) this means
`e1 < e2` iff `e1.value > e2.value`, so the heap root `entries[0]` is
the entry with the largest value.  Costs are floats, idealized as `ℚ`. -/
structure Entry (α : Type) where
  record : α
  value : ℚ
deriving DecidableEq, Inhabited

/-- Modelled from the spec: `heapq.nlargest(n, entries)` is documented
as `sorted(entries, reverse=True)[:n]` under the `Entry` order above,
i.e. the stable sort of the entries ascending by `value`, truncated to
`n`. -/
def pyNlargest {α : Type} (n : ℕ) (l : List (Entry α)) : List (Entry α) :=
  (l.insertionSort (fun a b => a.value ≤ b.value)).take n

/-- `CUDAScheduleGenerator.calculate_p` (lines 348-349):
`np.exp((x - best) / 2 * (best + 1e-5))`. -/
noncomputable def calculate_p (x best : ℚ) : ℝ :=
  Real.exp (((x : ℝ) - (best : ℝ)) / 2 * ((best : ℝ) + 1e-5))

/-- The `for i in range(max_num)` loop of `sa_select_entry`
(lines 381-387).  Each iteration draws `choice = np.random.randint(0,
num_cand)` (the streamed natural taken modulo `num_cand`) and a uniform
`np.random.random()` draw (a `ℚ` in `[0,1)`); on acceptance the source
returns `cand[i]` — indexed by the loop counter `i`, not by `choice`. -/
noncomputable def saLoop (cand : List (Entry Params)) (ps : List ℝ)
    (draws : ℕ → ℕ × ℚ) : ℕ → ℕ → Except String (Entry Params)
  | _, 0 =>
    -- no chosen, return the best: `return cand[0]`
    pyGetIdx cand 0
  | i, n + 1 =>
    let num_cand := cand.length
    let choice := (draws i).1 % num_cand
    if ((draws i).2 : ℝ) < ps.getD choice 0 then
      pyGetIdx cand i
    else
      saLoop cand ps draws (i + 1) n

/-- `CUDAScheduleGenerator.sa_select_entry` (lines 365-387), with the
random draws supplied as a stream.  `max_num` defaults to 20 at every
call site. -/
noncomputable def sa_select_entry (entries : List (Entry Params))
    (draws : ℕ → ℕ × ℚ) (max_num : ℕ) : Except String (Entry Params) :=
  if entries.length > 0 then
    let topk := pyNlargest (min max_num entries.length) entries
    let cand := topk
    match cand with
    | [] => .error "IndexError: list index out of range"
    | c0 :: _ =>
      let best_value := c0.value
      let ps := cand.map (fun x => calculate_p x.value best_value)
      saLoop cand ps draws 0 max_num
  else .error "AssertionError: len(self.entries) > 0"

/-! ## CUDAScheduleGenerator.valid and get (lines 348-440) -/

/-- `CUDAScheduleGenerator.valid` (lines 354-363): `factors[0][1]` is
the second element of the chosen factor list of each spatial component,
`record.last_factors[0][0][1]` the second element of the chosen factor
list of the single last-op component. -/
def validRecord (record : Params) : Bool :=
  let warp_num :=
    record.spatial_factors.foldl (fun acc factors => acc * factors.1.getD 1 0) 1
  if warp_num > 32 then false
  else
    let warp_num2 := ((record.last_factors.getD 0 ([], [])).1).getD 1 0
    if warp_num2 > 32 then false
    else true

/-- The mutable search state of a `CUDAScheduleGenerator`: the archive
`entries` (kept best-first, the heap-root order of the modelled `Entry`)
and the deduplication set `visited` (the source keys it by
`str(record)`, which is injective on records, so membership of the
record itself is checked here). -/
structure GenState where
  entries : List (Entry Params)
  visited : List Params
deriving DecidableEq

/-- One trial of the `get` loop draws fresh randomness.  Modelled from
the spec: each sub-generator `get(policy="random")` returns "a uniform
choice over the full choice space, independent of history"
(`search.QLearningParamGenerator.get` is not under src/), so the six
random components arrive as external draws; for `policy="q"` the
hint-directed local move is likewise drawn externally, as a function of
the hint record taken from the sampled archive entry. -/
structure TrialDraw where
  vectorizeDraw : ℕ × ℤ
  spatialDraws : List (List ℕ × List ℤ)
  reduceDraws : List (List ℕ × List ℤ)
  lastDraws : List (List ℕ × List ℤ)
  outputUnrollDraw : ℕ × ℤ
  lastUnrollDraw : ℕ × ℤ
  greedyRoll : ℚ
  saDraws : ℕ → ℕ × ℚ
  qDraw : Params → Params

/-- The record assembled in the `policy == "random"` branch of `get`
(lines 400-407): `record_cls` applied to the six random sub-draws. -/
def randAssemble (d : TrialDraw) : Params :=
  { vectorize := some d.vectorizeDraw
    spatial_factors := d.spatialDraws
    reduce_factors := d.reduceDraws
    last_factors := d.lastDraws
    output_unroll_step := some d.outputUnrollDraw
    last_unroll_step := some d.lastUnrollDraw }

instance {ε α : Type} [DecidableEq ε] [DecidableEq α] : DecidableEq (Except ε α) :=
  fun a b =>
    match a, b with
    | .ok x, .ok y =>
      if h : x = y then isTrue (by rw [h])
      else isFalse (by intro hh; injection hh; contradiction)
    | .error x, .error y =>
      if h : x = y then isTrue (by rw [h])
      else isFalse (by intro hh; injection hh; contradiction)
    | .ok _, .error _ => isFalse (by intro hh; exact Except.noConfusion hh)
    | .error _, .ok _ => isFalse (by intro hh; exact Except.noConfusion hh)

/-- Outcome of one iteration of the `for i in range(max_trial)` loop:
a candidate accepted by the dedup and validity checks, a rejected
iteration (fall through to the next trial), or an immediate return
(the `greedy` policy returns an archive entry directly). -/
inductive TrialOut where
  | accepted (p : Params)
  | rejected
  | immediate (o : Except String (Entry Params))
deriving Inhabited, DecidableEq

/-- What `get` returns: a fresh record, or (for the `greedy` policy and
the exhaustion fallback) an archived entry. -/
inductive GetOutcome where
  | record (p : Params)
  | entry (e : Entry Params)
deriving DecidableEq

/-- Lines 436-439 of `get`: the dedup check
(`repeat or str(record) not in self.visited`) followed by the validity
check, adding the accepted record to `visited`. -/
def checkRecord (rep : Bool) (st : GenState) (record : Params) : TrialOut :=
  if rep ∨ record ∉ st.visited then
    if validRecord record then .accepted record else .rejected
  else .rejected

/-- One iteration of the body of `get` (lines 399-439). -/
noncomputable def trialOnce (eps : ℚ) (policy : String) (rep : Bool)
    (st : GenState) (d : TrialDraw) : Except String TrialOut :=
  if policy = "random" ∨ st.entries = [] then
    .ok (checkRecord rep st (randAssemble d))
  else if policy = "q" then
    -- `self.greedy()` is `np.random.random() > self.eps` (lines 351-352)
    if d.greedyRoll > eps then
      match sa_select_entry st.entries d.saDraws 20 with
      | .error e => .error e
      | .ok entry => .ok (checkRecord rep st (d.qDraw entry.record))
    else
      .ok (checkRecord rep st (randAssemble d))
  else if policy = "greedy" then
    match st.entries with
    | [] => .error "IndexError: list index out of range"
    | e :: _ => .ok (.immediate (.ok e))
  else
    .error ("RuntimeError: Unknown policy: " ++ policy)

/-- The `for i in range(max_trial)` loop of `get` together with the
fall-through `return self.entries[0]` (line 440): `entries[0]` of an
empty archive raises IndexError. -/
noncomputable def getLoop (eps : ℚ) (policy : String) (rep : Bool)
    (stream : ℕ → TrialDraw) (st : GenState) :
    ℕ → ℕ → Except String (GetOutcome × GenState)
  | _, 0 =>
    match st.entries with
    | [] => .error "IndexError: list index out of range"
    | e :: _ => .ok (.entry e, st)
  | i, n + 1 =>
    match trialOnce eps policy rep st (stream i) with
    | .error e => .error e
    | .ok (.immediate (.error e)) => .error e
    | .ok (.immediate (.ok e)) => .ok (.entry e, st)
    | .ok (.accepted p) => .ok (.record p, { st with visited := p :: st.visited })
    | .ok .rejected => getLoop eps policy rep stream st (i + 1) n

/-- `CUDAScheduleGenerator.get` (lines 398-440). -/
noncomputable def get (eps : ℚ) (policy : String) (rep : Bool)
    (max_trial : ℕ) (st : GenState) (stream : ℕ → TrialDraw) :
    Except String (GetOutcome × GenState) :=
  getLoop eps policy rep stream st 0 max_trial

/-! ## auto_schedule (lines 857-879) -/

/-- An operation of the transform-state target DAG as `auto_schedule`
sees it: its identity and how many reduce axes it has. -/
structure AOp where
  id : ℕ
  num_reduce_axis : ℕ
deriving DecidableEq

/-- The transform state handed to `auto_schedule`: the main-op map and
the target DAG operation list. -/
structure TransformStateModel where
  main_op_map : List (ℕ × ℕ)
  target_dag_ops : List AOp
deriving DecidableEq

/-- `auto_schedule` (lines 857-879): iterating `main_op_map.items()`
leaves the last value in `target_main_op`; the assertion fires when the
map is empty; the first reduction-bearing non-main op raises; any target
other than `"cuda"` raises. -/
def auto_schedule (recipe_target : String) (ts : TransformStateModel) :
    Except String Unit :=
  match (ts.main_op_map.map Prod.snd).getLast? with
  | none => .error "AssertionError: target_main_op is not None"
  | some target_main_op =>
    match ts.target_dag_ops.find?
        (fun op => decide (0 < op.num_reduce_axis) && decide (op.id ≠ target_main_op)) with
    | some _ =>
      .error "We do not support scheduling for reduce op which is not main op."
    | none =>
      if recipe_target = "cuda" then .ok ()
      else .error ("Target not supported: " ++ recipe_target)

/-! ## The schedule applier (scheduling.py lines 456-854)

TVM schedule objects are embedded symbolically: an `Axis` is the
syntactic derivation tree of a loop axis (original operation axes,
cache-stage axes, split and fused axes), a `Schedule` is the trace of
schedule primitives applied so far, in application order.  Two schedules
are structurally identical exactly when the traces are equal. -/

/-- `recipe.OperationRole` (not under src/): the three roles the
scheduler dispatches on. -/
inductive OperationRole where
  | load_op
  | main_op
  | output_op
deriving DecidableEq

/-- `recipe.InstructionScope` (not under src/): thread- or warp-level
instruction granularity. -/
inductive InstructionScope where
  | thread
  | warp
deriving DecidableEq

/-- Symbolic loop axes.  `split` of an axis by a factor (or by a parts
count) yields the outer/inner children; `fuse` yields a fresh token
identified by the operation and a per-operation tag (call sites use
distinct tags); `cacheAxis` are the axes of a cache stage. -/
inductive Axis where
  | base (op : ℕ) (reduce : Bool) (i : ℕ)
  | cacheAxis (op : ℕ) (i : ℕ)
  | splitOuter (a : Axis) (factor : ℕ)
  | splitInner (a : Axis) (factor : ℕ)
  | splitOuterP (a : Axis) (nparts : ℕ)
  | splitInnerP (a : Axis) (nparts : ℕ)
  | fusedAx (op : ℕ) (tag : ℕ)
deriving DecidableEq, Inhabited

/-- One recorded schedule primitive. -/
inductive SchedPrim where
  | computeInline (op : ℕ)
  | cacheRead (op : ℕ) (scope : String) (readers : List ℕ) (newStage : ℕ)
  | computeAt (op : ℕ) (target : ℕ) (axis : Axis)
  | split (op : ℕ) (axis : Axis) (factor : ℕ)
  | splitNParts (op : ℕ) (axis : Axis) (nparts : ℕ)
  | reorder (op : ℕ) (axes : List Axis)
  | fuse (op : ℕ) (parts : List Axis) (result : Axis)
  | bind (op : ℕ) (axis : Axis) (thread : String)
  | vectorize (op : ℕ) (axis : Axis)
  | setScope (op : ℕ) (scope : String)
  | pragma (op : ℕ) (axis : Axis) (key : String) (step : ℕ)
  | tensorize (op : ℕ) (axis : Axis) (intrin : String)
deriving DecidableEq

/-- A TVM schedule, as the trace of primitives applied so far. -/
abbrev Schedule := List SchedPrim

/-- `State` (scheduling.py lines 14-22): the per-apply scratch data. -/
structure State where
  inlined : List ℕ
  main_op_reduce_axis : List (List Axis)
  output_op_axis : List (List Axis)
  last_op_axis : List (List Axis)
  tensorize_iter : List (ℕ × Axis)
deriving DecidableEq

/-- `empty_state` (lines 25-26). -/
def empty_state : State :=
  { inlined := []
    main_op_reduce_axis := []
    output_op_axis := []
    last_op_axis := []
    tensorize_iter := [] }

/-- Per-operation data of the target DAG: whether the op is a
`tvm.te.ComputeOp`, its spatial axes and its reduce axes. -/
structure OpInfo where
  is_compute : Bool
  axis : List Axis
  reduce_axis : List Axis

/-- The target compute DAG: the linear operation list, per-operation
info, and the feed (consumer) graph. -/
structure ComputeDag where
  op_lst : List ℕ
  op_info : ℕ → OpInfo
  feed_graph : List (ℕ × List ℕ)

/-- The recipe-stage fields the applier reads
(cf. `RecipeStage` construction, lines 281-294). -/
structure RecipeStage where
  operation_role : List (ℕ × OperationRole)
  instruction_scope : InstructionScope
  capsule_key : List (ℕ × String)
  reserve_inner_axis_count : List (ℕ × ℕ)
  main_op_reserve_reduce_axis : List ℕ

/-- The immutable fields a `CUDAScheduleApplier` copies from the
schedule-compute info at construction (lines 457-472). -/
structure ApplierCore where
  target_dag : ComputeDag
  main_op : ℕ
  output_op : ℕ
  main_op_id : ℕ
  output_op_id : ℕ
  recipe_stage : RecipeStage

/-- `CUDAScheduleApplier` (lines 456-504): the construction-time data
plus the mutable `state` and `params` fields. -/
structure CUDAScheduleApplier where
  target_dag : ComputeDag
  main_op : ℕ
  output_op : ℕ
  main_op_id : ℕ
  output_op_id : ℕ
  recipe_stage : RecipeStage
  state : State
  params : Params

def CUDAScheduleApplier.core (a : CUDAScheduleApplier) : ApplierCore :=
  { target_dag := a.target_dag
    main_op := a.main_op
    output_op := a.output_op
    main_op_id := a.main_op_id
    output_op_id := a.output_op_id
    recipe_stage := a.recipe_stage }

/-- `self.warp_size = 32` (line 495). -/
def warp_size : ℕ := 32

def exceptOfOption {α : Type} (msg : String) : Option α → Except String α
  | some v => .ok v
  | none => .error msg

/-! ### State accessors (lines 519-565) -/

/-- `get_main_op_outermost_last_reduce_axis` (lines 519-528). -/
def get_main_op_outermost_last_reduce_axis (st : State) : Except String Axis :=
  match st.main_op_reduce_axis with
  | [] => .error "No reduce axis in main op."
  | part :: _ =>
    match part.getLast? with
    | some ax => .ok ax
    | none => .error "AssertionError: len(self.state.main_op_reduce_axis[0]) > 0"

/-- `get_main_op_second_outermost_last_reduce_axis` (lines 530-537). -/
def get_main_op_second_outermost_last_reduce_axis (st : State) : Except String Axis :=
  if st.main_op_reduce_axis.length > 1 then
    match (st.main_op_reduce_axis.getD 1 []).getLast? with
    | some ax => .ok ax
    | none => .error "AssertionError: len(self.state.main_op_reduce_axis[1]) > 0"
  else
    get_main_op_outermost_last_reduce_axis st

/-- `get_output_op_third_innermost_last_axis` (lines 539-543). -/
def get_output_op_third_innermost_last_axis (st : State) : Except String Axis :=
  if st.output_op_axis.length > 2 then
    match (st.output_op_axis.getD (st.output_op_axis.length - 3) []).getLast? with
    | some ax => .ok ax
    | none => .error "AssertionError: len(self.state.output_op_axis[-3]) > 0"
  else .error "AssertionError: len(self.state.output_op_axis) > 2"

/-- `get_output_op_outermost_last_axis` (lines 545-549). -/
def get_output_op_outermost_last_axis (st : State) : Except String Axis :=
  if st.output_op_axis.length > 1 then
    match (st.output_op_axis.getD 0 []).getLast? with
    | some ax => .ok ax
    | none => .error "AssertionError: len(self.state.output_op_axis[0]) > 0"
  else .error "AssertionError: len(self.state.output_op_axis) > 1"

/-- `get_last_op_second_innermost_last_axis` (lines 551-555). -/
def get_last_op_second_innermost_last_axis (st : State) : Except String Axis :=
  match st.last_op_axis.getLast? with
  | none => .error "AssertionError: len(self.state.last_op_axis) > 0"
  | some part =>
    if part.length > 1 then pyGetNeg part 2
    else .error "AssertionError: len(self.state.last_op_axis[-1]) > 1"

/-- `get_last_op_outermost_last_axis` (lines 557-561): note the source
returns `last_op_axis[0][0]`, the first element. -/
def get_last_op_outermost_last_axis (st : State) : Except String Axis :=
  match st.last_op_axis with
  | [] => .error "AssertionError: len(self.state.last_op_axis) > 0"
  | part :: _ =>
    match part with
    | [] => .error "AssertionError: len(self.state.last_op_axis[0]) > 0"
    | ax :: _ => .ok ax

/-- `get_tensorize_iter` (lines 563-565). -/
def get_tensorize_iter (st : State) (op : ℕ) : Except String Axis :=
  exceptOfOption "AssertionError: op in self.state.tensorize_iter"
    (assocGet st.tensorize_iter op)

/-! ### Params accessors (lines 567-605) -/

/-- `get_main_op_warp_numbers` (lines 567-573): the product of
`part[0][-2]` over the spatial factor components. -/
def get_main_op_warp_numbers (p : Params) : Except String ℕ :=
  if p.spatial_factors.length > 0 then
    p.spatial_factors.foldlM
      (fun ret part =>
        if part.1.length > 1 then do
          let f ← pyGetNeg part.1 2
          pure (ret * f)
        else .error "AssertionError: len(part[0]) > 1")
      1
  else .error "AssertionError: len(self.params.spatial_factors) > 0"

/-- `get_main_op_reduce_axis_factors` (lines 575-577). -/
def get_main_op_reduce_axis_factors (p : Params) (number : ℕ) :
    Except String (List (List ℕ)) :=
  if number ≤ p.reduce_factors.length then
    .ok ((p.reduce_factors.take number).map Prod.fst)
  else .error "AssertionError: len(self.params.reduce_factors) >= number"

/-- `get_output_op_axis_factors` (lines 579-581). -/
def get_output_op_axis_factors (p : Params) (number : ℕ) :
    Except String (List (List ℕ)) :=
  if number ≤ p.spatial_factors.length then
    .ok ((p.spatial_factors.take number).map Prod.fst)
  else .error "AssertionError: len(self.params.spatial_factors) >= number"

/-- `get_last_op_axis_factors` (lines 583-585). -/
def get_last_op_axis_factors (p : Params) (number : ℕ) :
    Except String (List (List ℕ)) :=
  if number ≤ p.last_factors.length then
    .ok ((p.last_factors.take number).map Prod.fst)
  else .error "AssertionError: len(self.params.last_factors) >= number"

/-- `get_last_op_warp_numbers` (lines 587-593): the product of
`part[0][-1]` over the last-op factor components. -/
def get_last_op_warp_numbers (p : Params) : Except String ℕ :=
  if p.last_factors.length > 0 then
    p.last_factors.foldlM
      (fun ret part => do
        let f ← pyGetNeg part.1 1
        pure (ret * f))
      1
  else .error "AssertionError: len(self.params.last_factors) > 0"

/-- `get_vectorize_length` (lines 595-597). -/
def get_vectorize_length (p : Params) : Except String ℕ :=
  match p.vectorize with
  | some v => .ok v.1
  | none => .error "AssertionError: self.params.vectorize is not None"

/-- `get_output_op_unroll_step` (lines 599-601). -/
def get_output_op_unroll_step (p : Params) : Except String ℕ :=
  match p.output_unroll_step with
  | some v => .ok v.1
  | none => .error "AssertionError: self.params.output_unroll_step is not None"

/-- `get_last_op_unroll_step` (lines 603-605). -/
def get_last_op_unroll_step (p : Params) : Except String ℕ :=
  match p.last_unroll_step with
  | some v => .ok v.1
  | none => .error "AssertionError: self.params.last_unroll_step is not None"

/-- `check_parameter_ready` (lines 607-608). -/
def check_parameter_ready : Bool := true

/-- `can_inline` (lines 187-198). -/
def can_inline (op : ℕ) (dag : ComputeDag) : Bool :=
  (assocGet dag.feed_graph op).isSome
    && (dag.op_info op).is_compute
    && decide ((dag.op_info op).reduce_axis = [])

/-! ### The seven primitives (lines 610-825) -/

/-- `inline` (lines 610-616). -/
def inline (c : ApplierCore) (_p : Params) (_op_id op : ℕ)
    (st : State) (sch : Schedule) : Except String (State × Schedule) :=
  if (assocGet c.recipe_stage.operation_role op).isSome then .ok (st, sch)
  else if can_inline op c.target_dag then
    .ok ({ st with inlined := st.inlined ++ [op] }, sch ++ [.computeInline op])
  else .ok (st, sch)

/-- The fresh stage identifier created by `sch.cache_read`
(deterministic function of the cached operation). -/
def cacheStageId (op : ℕ) : ℕ := 100000 + op

/-- `cache_read` (lines 618-668); the staging path for consumers of the
trailing operation is present in the source only as commented-out code,
so only its `do_cache_read_for_last` flag (feeding the assertion)
remains active. -/
def cache_read (c : ApplierCore) (p : Params) (_op_id op : ℕ)
    (st : State) (sch : Schedule) : Except String (State × Schedule) :=
  if (assocGet c.recipe_stage.operation_role op).isSome then .ok (st, sch)
  else
    match assocGet c.target_dag.feed_graph op with
    | none => .ok (st, sch)
    | some consumers =>
      match consumers with
      | [] => .ok (st, sch)
      | c0 :: _ => do
        let do_cache_read_for_load :=
          match assocGet c.recipe_stage.operation_role c0 with
          | some r => decide (r = OperationRole.load_op) && decide (consumers.length = 1)
          | none => false
        let lastOp ← pyGetNeg c.target_dag.op_lst 1
        let do_cache_read_for_last := decide (c0 = lastOp) && decide (consumers.length = 1)
        if do_cache_read_for_load && do_cache_read_for_last then
          .error "AssertionError: not (do_cache_read_for_load and do_cache_read_for_last)"
        else if do_cache_read_for_load then do
          let S := cacheStageId op
          let sch := sch ++ [.cacheRead op "shared" consumers S]
          let axis ← get_main_op_outermost_last_reduce_axis st
          let sch := sch ++ [.computeAt S c.main_op axis]
          let warp_num ← get_main_op_warp_numbers p
          let vec_len ← get_vectorize_length p
          let sAxes := (List.range (c.target_dag.op_info op).axis.length).map
            (fun i => Axis.cacheAxis S i)
          let fused := Axis.fusedAx S 0
          let sch := sch ++ [.fuse S sAxes fused]
          let vectorized := Axis.splitInner fused vec_len
          let f1 := Axis.splitOuter fused vec_len
          let sch := sch ++ [.split S fused vec_len]
          let thread_level := Axis.splitInner f1 warp_size
          let f2 := Axis.splitOuter f1 warp_size
          let sch := sch ++ [.split S f1 warp_size]
          let warp_level := Axis.splitInner f2 warp_num
          let sch := sch ++ [.split S f2 warp_num]
          let sch := sch ++ [.bind S thread_level "threadIdx.x",
                             .bind S warp_level "threadIdx.y",
                             .vectorize S vectorized]
          .ok (st, sch)
        else .ok (st, sch)

/-- `set_scope` (lines 670-675). -/
def set_scope (c : ApplierCore) (_p : Params) (_op_id op : ℕ)
    (st : State) (sch : Schedule) : Except String (State × Schedule) :=
  match assocGet c.recipe_stage.operation_role op with
  | some r =>
    if r ≠ OperationRole.output_op then .ok (st, sch ++ [.setScope op "local"])
    else .ok (st, sch)
  | none => .ok (st, sch)

/-- The inner split loop of `tiling` (lines 703-710 and 733-740 and
777-782): `for f in reversed(factors[1:]): iv, inner = split(iv, f);
part.append(inner)`, then append the remaining outer axis and reverse.
Returns the tile-level part (outermost first) and the recorded split
primitives. -/
def splitChain (op : ℕ) (iv : Axis) (factors : List ℕ) :
    List Axis × List SchedPrim :=
  let step := ((factors.drop 1).reverse).foldl
    (fun (acc : Axis × List Axis × List SchedPrim) f =>
      (Axis.splitOuter acc.1 f,
       Axis.splitInner acc.1 f :: acc.2.1,
       acc.2.2 ++ [SchedPrim.split op acc.1 f]))
    (iv, [], [])
  (step.1 :: step.2.1, step.2.2)

/-- Lines 687-694 of `tiling`: partition of the main op's reduce axes
into the reserved ones (index in `main_op_reserve_reduce_axis`) and the
split ones. -/
def splitReserveReduce (all_reduce_axis : List Axis) (tmp : List ℕ) :
    List Axis × List Axis :=
  ((all_reduce_axis.enum.filter (fun x => decide (x.1 ∈ tmp))).map Prod.snd,
   (all_reduce_axis.enum.filter (fun x => decide (x.1 ∉ tmp))).map Prod.snd)

/-- `tiling` (lines 677-786). -/
def tiling (c : ApplierCore) (p : Params) (_op_id op : ℕ)
    (st : State) (sch : Schedule) : Except String (State × Schedule) :=
  if op = c.main_op then do
    -- main op branch (lines 679-723)
    let axis := (c.target_dag.op_info op).axis
    let reserve_spatial_num ← exceptOfOption
      "KeyError: reserve_inner_axis_count" (assocGet c.recipe_stage.reserve_inner_axis_count op)
    -- spatial_axis_split_parts = [axis[:-n], axis[-n:]]
    let sp_outer := pySliceToNeg axis reserve_spatial_num
    let sp_reserved := pySliceFromNeg axis reserve_spatial_num
    let all_reduce_axis := (c.target_dag.op_info op).reduce_axis
    let pr := splitReserveReduce all_reduce_axis c.recipe_stage.main_op_reserve_reduce_axis
    let reserve_reduce_axis := pr.1
    let split_reduce_axis := pr.2
    let reserve_reduce_num := reserve_reduce_axis.length
    let pos ← get_output_op_third_innermost_last_axis st
    let sch := sch ++ [.computeAt op c.output_op pos]
    let reduce_axis_split_factors ← get_main_op_reduce_axis_factors p split_reduce_axis.length
    let chains := (split_reduce_axis.zip reduce_axis_split_factors).map
      (fun x => splitChain op x.1 x.2)
    let sch := sch ++ (chains.map Prod.snd).flatten
    let reduce_axis_split_parts := chains.map Prod.fst
    let reordered_reduce_axis := pyZipStar reduce_axis_split_parts ++ [reserve_reduce_axis]
    if reordered_reduce_axis.length > 3 then
      -- ordered_axis = ra[:-2] + [sp_outer] + ra[-2:-1] + [sp_reserved] + ra[-1:]
      let ordered_parts :=
        reordered_reduce_axis.take (reordered_reduce_axis.length - 2) ++
        [sp_outer] ++
        ((reordered_reduce_axis.take (reordered_reduce_axis.length - 1)).drop
          (reordered_reduce_axis.length - 2)) ++
        [sp_reserved] ++
        reordered_reduce_axis.drop (reordered_reduce_axis.length - 1)
      let ordered_axis := ordered_parts.flatten
      let sch := sch ++ [.reorder op ordered_axis]
      let ti ← pyGetNeg ordered_axis (reserve_spatial_num + reserve_reduce_num)
      .ok ({ st with main_op_reduce_axis := reordered_reduce_axis,
                     tensorize_iter := assocUpd st.tensorize_iter op ti }, sch)
    else .error "No enough reduce axis split."
  else if op = c.output_op then do
    -- output op branch (lines 724-770)
    let axis := (c.target_dag.op_info op).axis
    let reserve_spatial_num ← exceptOfOption
      "KeyError: reserve_inner_axis_count" (assocGet c.recipe_stage.reserve_inner_axis_count op)
    let split_spatial_axis := pySliceToNeg axis reserve_spatial_num
    let reserve_spatial_axis := pySliceFromNeg axis reserve_spatial_num
    let spatial_axis_split_factors ← get_output_op_axis_factors p split_spatial_axis.length
    let chains := (split_spatial_axis.zip spatial_axis_split_factors).map
      (fun x => splitChain op x.1 x.2)
    let sch := sch ++ (chains.map Prod.snd).flatten
    let spatial_axis_split_parts := chains.map Prod.fst
    let reordered_spatial_axis := pyZipStar spatial_axis_split_parts ++ [reserve_spatial_axis]
    let ordered_axis := reordered_spatial_axis.flatten
    let sch := sch ++ [.reorder op ordered_axis]
    if reordered_spatial_axis.length > 3 then
      let fuseParts := reordered_spatial_axis.take (reordered_spatial_axis.length - 2)
      let fused_axis := fuseParts.enum.map (fun x => Axis.fusedAx op x.1)
      let sch := sch ++ fuseParts.enum.map
        (fun x => SchedPrim.fuse op x.2 (Axis.fusedAx op x.1))
      let final_axis := fused_axis.map (fun x => [x])
      let b0 ← pyGetIdx fused_axis 0
      let sch := sch ++ [.bind op b0 "blockIdx.x"]
      -- the intermediate bind to vthread
      let sch := sch ++ ((fused_axis.drop 1).dropLast).map
        (fun m => SchedPrim.bind op m "vthread")
      let blast ← pyGetNeg fused_axis 1
      let sch := sch ++ [.bind op blast "threadIdx.y"]
      let res : List (List Axis) × Schedule ←
        if c.recipe_stage.instruction_scope = InstructionScope.thread then do
          let part ← pyGetNeg reordered_spatial_axis 2
          let fusedT := Axis.fusedAx op reordered_spatial_axis.length
          let sch := sch ++ [.fuse op part fusedT]
          let outer := Axis.splitOuterP fusedT warp_size
          let inner := Axis.splitInnerP fusedT warp_size
          let sch := sch ++ [.splitNParts op fusedT warp_size, .bind op outer "threadIdx.x"]
          let lastPart ← pyGetNeg reordered_spatial_axis 1
          .ok (final_axis ++ [[outer, inner], lastPart], sch)
        else do
          let part2 ← pyGetNeg reordered_spatial_axis 2
          let part1 ← pyGetNeg reordered_spatial_axis 1
          .ok (final_axis ++ [part2, part1], sch)
      let final_axis := res.1
      let sch := res.2
      let lastL ← pyGetNeg final_axis 1
      let ti ← pyGetNeg lastL 2
      .ok ({ st with output_op_axis := final_axis,
                     tensorize_iter := assocUpd st.tensorize_iter op ti }, sch)
    else .error "No enough spatial axis split."
  else if c.target_dag.op_lst.getLast? = some op then do
    -- last op branch (lines 771-786)
    let axis := (c.target_dag.op_info op).axis
    let fused := Axis.fusedAx op 0
    let sch := sch ++ [.fuse op axis fused]
    let thread_level := Axis.splitInner fused warp_size
    let f1 := Axis.splitOuter fused warp_size
    let sch := sch ++ [.split op fused warp_size]
    let split_factors ← get_last_op_axis_factors p 1
    let sf0 ← pyGetIdx split_factors 0
    let pr := splitChain op f1 sf0
    let split_parts := pr.1
    let sch := sch ++ pr.2
    let b0 ← pyGetIdx split_parts 0
    let blast ← pyGetNeg split_parts 1
    let sch := sch ++ [.bind op b0 "blockIdx.x", .bind op blast "threadIdx.y",
                       .bind op thread_level "threadIdx.x"]
    .ok ({ st with last_op_axis := [split_parts ++ [thread_level]] }, sch)
  else .ok (st, sch)

/-- `compute_at` (lines 788-802). -/
def compute_at (c : ApplierCore) (_p : Params) (op_id op : ℕ)
    (st : State) (sch : Schedule) : Except String (State × Schedule) :=
  if (assocGet c.recipe_stage.operation_role op).isNone then .ok (st, sch)
  else if op_id < c.main_op_id then do
    let axis ← get_main_op_second_outermost_last_reduce_axis st
    let sch := sch ++ [.computeAt op c.main_op axis]
    let reserve_spatial_num ← exceptOfOption
      "KeyError: reserve_inner_axis_count" (assocGet c.recipe_stage.reserve_inner_axis_count op)
    let ti ← pyGetNeg (c.target_dag.op_info op).axis reserve_spatial_num
    .ok ({ st with tensorize_iter := assocUpd st.tensorize_iter op ti }, sch)
  else if c.main_op_id < op_id ∧ op_id < c.output_op_id then do
    let axis ← get_output_op_third_innermost_last_axis st
    let sch := sch ++ [.computeAt op c.output_op axis]
    let reserve_spatial_num ← exceptOfOption
      "KeyError: reserve_inner_axis_count" (assocGet c.recipe_stage.reserve_inner_axis_count op)
    let ti ← pyGetNeg (c.target_dag.op_info op).axis reserve_spatial_num
    .ok ({ st with tensorize_iter := assocUpd st.tensorize_iter op ti }, sch)
  else .ok (st, sch)

/-- `unroll` (lines 804-817). -/
def unroll (c : ApplierCore) (p : Params) (_op_id op : ℕ)
    (st : State) (sch : Schedule) : Except String (State × Schedule) :=
  if op = c.output_op then do
    let axis ← get_output_op_outermost_last_axis st
    let step ← get_output_op_unroll_step p
    .ok (st, sch ++ [.pragma op axis "auto_unroll_max_step" step])
  else if op = c.main_op then do
    let axis ← get_main_op_outermost_last_reduce_axis st
    -- reuse output op unroll step
    let step ← get_output_op_unroll_step p
    .ok (st, sch ++ [.pragma op axis "auto_unroll_max_step" step])
  else if c.target_dag.op_lst.getLast? = some op then do
    let axis ← get_last_op_outermost_last_axis st
    let step ← get_last_op_unroll_step p
    .ok (st, sch ++ [.pragma op axis "auto_unroll_max_step" step])
  else .ok (st, sch)

/-- `tensorize` (lines 819-825). -/
def tensorize (c : ApplierCore) (_p : Params) (_op_id op : ℕ)
    (st : State) (sch : Schedule) : Except String (State × Schedule) :=
  if (assocGet c.recipe_stage.operation_role op).isNone then .ok (st, sch)
  else do
    let key ← exceptOfOption "KeyError: capsule_key" (assocGet c.recipe_stage.capsule_key op)
    let axis ← get_tensorize_iter st op
    .ok (st, sch ++ [SchedPrim.tensorize op axis key])

/-- The seven primitives in the order of the `primitives` list of
`apply` (lines 829-837), applied to one operation. -/
def applyPrimitives (c : ApplierCore) (p : Params) (op_id op : ℕ)
    (acc : State × Schedule) : Except String (State × Schedule) := do
  let r ← inline c p op_id op acc.1 acc.2
  let r ← cache_read c p op_id op r.1 r.2
  let r ← set_scope c p op_id op r.1 r.2
  let r ← tiling c p op_id op r.1 r.2
  let r ← compute_at c p op_id op r.1 r.2
  let r ← unroll c p op_id op r.1 r.2
  tensorize c p op_id op r.1 r.2

/-- The `for op_id, op in enumerate(reversed(dag.op_lst))` loop of
`apply` (lines 846-853): the list argument carries `(original index,
op)` pairs, already reversed, so `total_op - op_id - 1` is the first
component; non-compute ops are skipped. -/
def applyLoop (c : ApplierCore) (p : Params) :
    List (ℕ × ℕ) → State × Schedule → Except String (State × Schedule)
  | [], acc => .ok acc
  | (op_id, op) :: rest, acc =>
    if (c.target_dag.op_info op).is_compute then
      match applyPrimitives c p op_id op acc with
      | .error e => .error e
      | .ok acc' => applyLoop c p rest acc'
    else applyLoop c p rest acc

/-- `CUDAScheduleApplier.apply` (lines 827-854) with the default
identity `mapping_func`: stores the params, checks readiness, resets the
state to `empty_state`, then visits every compute op in reverse linear
order applying the seven primitives.  Returns the mutated schedule and
the applier as it is left after the call. -/
def apply (a : CUDAScheduleApplier) (sch : Schedule) (params : Params) :
    Except String (Schedule × CUDAScheduleApplier) :=
  -- initialize parameters; check_parameter_ready; initialize state
  let _ := check_parameter_ready
  match applyLoop a.core params (a.core.target_dag.op_lst.enum.reverse)
      (empty_state, sch) with
  | .error e => .error e
  | .ok (st', sch') =>
    .ok (sch', { a with state := st', params := params })

/-! ## Spec-side definitions and concrete instances used by the claims -/

/-- Spec-side reading of the warp constraint: "product over all
spatial-factor tuples of their warp-dimension entry (the second element
of each chosen factor tuple)". -/
def specSpatialWarpProduct (r : Params) : ℕ :=
  (r.spatial_factors.map (fun f => f.1.getD 1 0)).prod

/-- Spec-side reading of "the trailing operation's warp-dimension
factor (the second element of its chosen 2-way factor tuple)". -/
def specLastWarpFactor (r : Params) : ℕ :=
  ((r.last_factors.getD 0 ([], [])).1).getD 1 0

/-- `Except.isOk` as a plain boolean. -/
def exceptIsOk {α : Type} : Except String α → Bool
  | .ok _ => true
  | .error _ => false

/-- A draw whose candidate passes the warp-validity check (all factor
second entries are 1). -/
def trivialDraw : TrialDraw :=
  { vectorizeDraw := (1, 0)
    spatialDraws := [([1, 1, 1], [0])]
    reduceDraws := [([2, 2, 2], [0])]
    lastDraws := [([1, 1], [0])]
    outputUnrollDraw := (16, 0)
    lastUnrollDraw := (16, 0)
    greedyRoll := 0
    saDraws := fun _ => (0, 0)
    qDraw := id }

/-- A draw whose candidate always fails the warp-validity check
(spatial warp entry 64 > 32). -/
def invalidDraw : TrialDraw :=
  { vectorizeDraw := (1, 0)
    spatialDraws := [([1, 64, 1], [0])]
    reduceDraws := [([2, 2, 2], [0])]
    lastDraws := [([1, 1], [0])]
    outputUnrollDraw := (16, 0)
    lastUnrollDraw := (16, 0)
    greedyRoll := 0
    saDraws := fun _ => (0, 0)
    qDraw := id }

/-- The single candidate of the singleton choice space used for C9. -/
def singletonRecord : Params := randAssemble trivialDraw

/-- An archived entry used to exercise the nonempty-archive fallback. -/
def archivedEntry : Entry Params := ⟨empty_params, 5⟩

/-- Two archive entries of equal cost but distinct records, used for the
`sa_select_entry` failing input. -/
def saEntryA : Entry Params := ⟨empty_params, 0⟩

def saEntryB : Entry Params := ⟨{ empty_params with vectorize := some (1, 0) }, 0⟩

/-- The draw stream of the `sa_select_entry` failing input: every
iteration samples `choice = 1` with uniform draw `0`. -/
def saBugDraws : ℕ → ℕ × ℚ := fun _ => (1, 0)

/-- Concrete target DAG for the `tiling` main-op instance: op `0` is the
Main operation with two spatial axes and two reduce axes (the second
reserved), op `1` is the Output operation. -/
def tilingDag : ComputeDag :=
  { op_lst := [0, 1]
    op_info := fun op =>
      if op = 0 then
        { is_compute := true
          axis := [Axis.base 0 false 0, Axis.base 0 false 1]
          reduce_axis := [Axis.base 0 true 0, Axis.base 0 true 1] }
      else
        { is_compute := true
          axis := [Axis.base 1 false 0]
          reduce_axis := [] }
    feed_graph := [(0, [1])] }

def tilingCore : ApplierCore :=
  { target_dag := tilingDag
    main_op := 0
    output_op := 1
    main_op_id := 0
    output_op_id := 1
    recipe_stage :=
      { operation_role := [(0, OperationRole.main_op), (1, OperationRole.output_op)]
        instruction_scope := InstructionScope.warp
        capsule_key := [(0, "mma"), (1, "store")]
        reserve_inner_axis_count := [(0, 1), (1, 1)]
        main_op_reserve_reduce_axis := [1] } }

def tilingParams : Params :=
  { empty_params with
      reduce_factors := [([2, 2, 2], [0])]
      spatial_factors := [([1, 1, 1], [0])]
      last_factors := [([1, 1], [0])] }

/-- A scheduling state in which the Output operation has already been
tiled into three levels (so the third-innermost-axis accessor
succeeds). -/
def tilingState : State :=
  { empty_state with
      output_op_axis :=
        [[Axis.base 1 false 10], [Axis.base 1 false 11], [Axis.base 1 false 12]] }

/-- The state produced by the concrete `tiling` run on the Main op. -/
def tilingMainSt : State :=
  match tiling tilingCore tilingParams 0 0 tilingState [] with
  | .ok r => r.1
  | .error _ => empty_state

/-- The schedule trace produced by the concrete `tiling` run on the
Main op. -/
def tilingMainSch : Schedule :=
  match tiling tilingCore tilingParams 0 0 tilingState [] with
  | .ok r => r.2
  | .error _ => []

/-! ## Helper lemmas -/

theorem dictLookup_eq_none {α β : Type} [DecidableEq α]
    (ps : List (α × β)) (k : α) (h : k ∉ ps.map Prod.fst) :
    dictLookup ps k = none := by
  induction ps with
  | nil => rfl
  | cons p rest ih =>
    obtain ⟨a, b⟩ := p
    simp only [List.map_cons, List.mem_cons, not_or] at h
    simp only [dictLookup, ih h.2, if_neg h.1]

theorem dictLookup_swap_ex {ps : List (ℕ × ℕ)} (hnd : (ps.map Prod.fst).Nodup)
    {y : ℕ} (hy : y ∈ ps.map Prod.snd) :
    ∃ x, dictLookup (ps.map (fun q => (q.2, q.1))) y = some x ∧
      dictLookup ps x = some y := by
  induction ps with
  | nil => simp at hy
  | cons p rest ih =>
    obtain ⟨a, b⟩ := p
    simp only [List.map_cons, List.nodup_cons] at hnd
    by_cases hyr : y ∈ rest.map Prod.snd
    · obtain ⟨x, h1, h2⟩ := ih hnd.2 hyr
      refine ⟨x, ?_, ?_⟩
      · simp only [List.map_cons, dictLookup, h1]
      · simp only [dictLookup, h2]
    · have hyb : y = b := by
        simp only [List.map_cons, List.mem_cons] at hy
        tauto
      subst hyb
      have hnone : dictLookup (rest.map (fun q => (q.2, q.1))) y = none := by
        apply dictLookup_eq_none
        simpa [List.map_map, Function.comp] using hyr
      refine ⟨a, ?_, ?_⟩
      · simp [List.map_cons, dictLookup, hnone]
      · have hra : dictLookup rest a = none := dictLookup_eq_none _ _ hnd.1
        simp [dictLookup, hra]

theorem dictLookup_swap_bind {ps : List (ℕ × ℕ)} (hnd : (ps.map Prod.fst).Nodup)
    {y : ℕ} (hy : y ∈ ps.map Prod.snd) :
    (dictLookup (ps.map (fun q => (q.2, q.1))) y).bind (dictLookup ps) = some y := by
  obtain ⟨x, h1, h2⟩ := dictLookup_swap_ex hnd hy
  rw [h1]
  exact h2

theorem pyListMap_dict_roundtrip {fm : List (ℕ × ℕ)} (hnd : (fm.map Prod.fst).Nodup)
    (fs : List ℕ) (hall : ∀ f ∈ fs, f ∈ fm.map Prod.snd) :
    (pyListMap (dictLookup (fm.map (fun q => (q.2, q.1)))) fs).bind
      (pyListMap (dictLookup fm)) = some fs := by
  induction fs with
  | nil => rfl
  | cons f fs ih =>
    obtain ⟨x, h1, h2⟩ := dictLookup_swap_ex hnd (hall f (by simp))
    have ih' := ih (fun g hg => hall g (by simp [hg]))
    cases hms : pyListMap (dictLookup (fm.map (fun q => (q.2, q.1)))) fs with
    | none => rw [hms] at ih'; simp at ih'
    | some hs =>
      rw [hms] at ih'
      simp only [Option.some_bind] at ih'
      simp [pyListMap, hms, h1, h2, ih']

theorem zip_map_swap {α β : Type} (l1 : List α) (l2 : List β) :
    (l1.zip l2).map (fun q => (q.2, q.1)) = l2.zip l1 := by
  induction l1 generalizing l2 with
  | nil => simp
  | cons a l ih => cases l2 <;> simp [ih]

/-! ## C5 -/

/-- C5: serializing a `Params` with `to_json` and deserializing the
result, through `Params.from_json` or through
`CUDAScheduleGenerator.record_from_json`, reproduces a `Params` equal to
the original in all six fields. -/
theorem c5_params_json_roundtrip (p q : Params) :
    record_from_json (Params.to_json p) = p ∧
      Params.from_json q (Params.to_json p) = p :=
  ⟨rfl, rfl⟩

/-! ## C6 -/

/-- C6: for each of `SplitFactorGenerator`, `VectorizeLengthGenerator`
and `UnrollStepGenerator` and every element of its choice space,
`map_from_hidden (map_to_hidden x)` returns `x`. -/
theorem c6_map_hidden_roundtrip :
    (∀ (extent parts : ℕ) (xs : List ℕ), xs ∈ any_factor_split extent parts →
      ((mkSplitFactorGenerator extent parts).map_to_hidden xs).bind
        (mkSplitFactorGenerator extent parts).map_from_hidden = some xs)
    ∧ (∀ (w x : ℕ), x ∈ (mkVectorizeLengthGenerator w).lengths →
      ((mkVectorizeLengthGenerator w).map_to_hidden x).bind
        (mkVectorizeLengthGenerator w).map_from_hidden = some x)
    ∧ (∀ (steps : List ℕ) (x : ℕ), x ∈ steps →
      ((mkUnrollStepGenerator steps).map_to_hidden x).bind
        (mkUnrollStepGenerator steps).map_from_hidden = some x) := by
  refine ⟨?_, ?_, ?_⟩
  · intro extent parts xs hxs
    have hlen : (List.range ((any_factor_split extent parts).flatten.dedup.length)).length
        = (any_factor_split extent parts).flatten.dedup.length := List.length_range _
    simp only [mkSplitFactorGenerator, remap_factors, SplitFactorGenerator.map_to_hidden,
      SplitFactorGenerator.map_from_hidden]
    apply pyListMap_dict_roundtrip
    · rw [List.map_fst_zip _ _ (le_of_eq hlen)]
      exact List.nodup_range _
    · intro f hf
      rw [List.map_snd_zip _ _ (ge_of_eq hlen)]
      exact List.mem_dedup.mpr (List.mem_flatten.mpr ⟨xs, hxs, hf⟩)
  · intro w x hx
    have hlen : (List.range (mkVectorizeLengthGenerator w).lengths.length).length
        = (mkVectorizeLengthGenerator w).lengths.length := List.length_range _
    simp only [VectorizeLengthGenerator.map_to_hidden, VectorizeLengthGenerator.map_from_hidden]
    have hrev : (mkVectorizeLengthGenerator w).reverse_map =
        ((mkVectorizeLengthGenerator w).length_map).map (fun q => (q.2, q.1)) := by
      simp only [mkVectorizeLengthGenerator]
      rw [zip_map_swap]
    rw [hrev]
    apply dictLookup_swap_bind
    · simp only [mkVectorizeLengthGenerator]
      rw [List.map_fst_zip _ _ (le_of_eq (List.length_range _))]
      exact List.nodup_range _
    · simp only [mkVectorizeLengthGenerator]
      rw [List.map_snd_zip _ _ (ge_of_eq (List.length_range _))]
      simpa [mkVectorizeLengthGenerator] using hx
  · intro steps x hx
    simp only [UnrollStepGenerator.map_to_hidden, UnrollStepGenerator.map_from_hidden]
    have hrev : (mkUnrollStepGenerator steps).reverse_map =
        ((mkUnrollStepGenerator steps).length_map).map (fun q => (q.2, q.1)) := by
      simp only [mkUnrollStepGenerator]
      rw [zip_map_swap]
    rw [hrev]
    apply dictLookup_swap_bind
    · simp only [mkUnrollStepGenerator]
      rw [List.map_fst_zip _ _ (le_of_eq (List.length_range _))]
      exact List.nodup_range _
    · simp only [mkUnrollStepGenerator]
      rw [List.map_snd_zip _ _ (ge_of_eq (List.length_range _))]
      exact hx

/-- C6 witness: the round-trip at concrete inputs of each generator:
the split generator for extent 4 into 2 parts at the factorization
`[2, 2]`, the vectorize generator for maximum width 4 at length `2`,
and the unroll generator over `[16, 64, 512, 1500]` at step `512`. -/
theorem c6_map_hidden_roundtrip_witness :
    ((mkSplitFactorGenerator 4 2).map_to_hidden [2, 2]).bind
        (mkSplitFactorGenerator 4 2).map_from_hidden = some [2, 2]
    ∧ ((mkVectorizeLengthGenerator 4).map_to_hidden 2).bind
        (mkVectorizeLengthGenerator 4).map_from_hidden = some 2
    ∧ ((mkUnrollStepGenerator [16, 64, 512, 1500]).map_to_hidden 512).bind
        (mkUnrollStepGenerator [16, 64, 512, 1500]).map_from_hidden = some 512 :=
  ⟨c6_map_hidden_roundtrip.1 4 2 [2, 2] (by decide),
   c6_map_hidden_roundtrip.2.1 4 2 (by decide),
   c6_map_hidden_roundtrip.2.2 [16, 64, 512, 1500] 512 (by decide)⟩

/-! ## C3 -/

theorem checkRecord_accepted {rep : Bool} {st : GenState} {r p : Params}
    (h : checkRecord rep st r = .accepted p) : validRecord p = true := by
  unfold checkRecord at h
  split_ifs at h with h1 h2
  all_goals first
    | (injection h with h; rw [← h]; exact h2)
    | simp at h

theorem trialOnce_accepted {eps : ℚ} {policy : String} {rep : Bool}
    {st : GenState} {d : TrialDraw} {p : Params}
    (h : trialOnce eps policy rep st d = .ok (.accepted p)) :
    validRecord p = true := by
  unfold trialOnce at h
  split_ifs at h with h1 h2 h3 h4
  all_goals first
    | (injection h with h; exact checkRecord_accepted h)
    | (cases hsa : sa_select_entry st.entries d.saDraws 20 with
        | error e => rw [hsa] at h; simp at h
        | ok entry =>
          rw [hsa] at h
          injection h with h
          exact checkRecord_accepted h)
    | (cases hs : st.entries with
        | nil => rw [hs] at h; simp at h
        | cons e t => rw [hs] at h; simp at h)
    | simp at h

theorem getLoop_record_valid (eps : ℚ) (policy : String) (rep : Bool)
    (stream : ℕ → TrialDraw) :
    ∀ (n i : ℕ) (st : GenState) (p : Params) (st' : GenState),
      getLoop eps policy rep stream st i n = .ok (.record p, st') →
      validRecord p = true := by
  intro n
  induction n with
  | zero =>
    intro i st p st' h
    unfold getLoop at h
    cases hs : st.entries with
    | nil => rw [hs] at h; simp at h
    | cons e t => rw [hs] at h; simp at h
  | succ n ih =>
    intro i st p st' h
    unfold getLoop at h
    cases ht : trialOnce eps policy rep st (stream i) with
    | error e => rw [ht] at h; simp at h
    | ok t =>
      rw [ht] at h
      cases t with
      | accepted q =>
        simp only [Except.ok.injEq, Prod.mk.injEq, GetOutcome.record.injEq] at h
        rw [← h.1]
        exact trialOnce_accepted ht
      | rejected => exact ih (i + 1) st p st' h
      | immediate o =>
        cases o with
        | error e => simp at h
        | ok e => simp at h

/-- C3: `valid(record)` returns True exactly when the product of the
spatial warp-dimension entries is at most 32 and the trailing warp
factor is at most 32; and every record that `get` returns through its
normal (non-fallback) path passes this check. -/
theorem c3_valid_characterization :
    (∀ r : Params, validRecord r = true ↔
      specSpatialWarpProduct r ≤ 32 ∧ specLastWarpFactor r ≤ 32)
    ∧ (∀ (eps : ℚ) (policy : String) (rep : Bool) (max_trial : ℕ)
        (st : GenState) (stream : ℕ → TrialDraw) (p : Params) (st' : GenState),
        get eps policy rep max_trial st stream = .ok (.record p, st') →
        validRecord p = true) := by
  constructor
  · intro r
    have hfold : r.spatial_factors.foldl (fun acc factors => acc * factors.1.getD 1 0) 1
        = specSpatialWarpProduct r := by
      rw [specSpatialWarpProduct, List.prod_eq_foldl, List.foldl_map]
    have hlast : ((r.last_factors.getD 0 ([], [])).1).getD 1 0 = specLastWarpFactor r := rfl
    unfold validRecord
    rw [hfold, hlast]
    by_cases h1 : specSpatialWarpProduct r > 32
    · rw [if_pos h1]
      constructor
      · intro hh
        exact absurd hh (by decide)
      · intro hh
        exact absurd h1 (by omega)
    · rw [if_neg h1]
      by_cases h2 : specLastWarpFactor r > 32
      · rw [if_pos h2]
        constructor
        · intro hh
          exact absurd hh (by decide)
        · intro hh
          exact absurd h2 (by omega)
      · rw [if_neg h2]
        constructor
        · intro _
          exact ⟨by omega, by omega⟩
        · intro _
          rfl
  · intro eps policy rep max_trial st stream p st' h
    exact getLoop_record_valid eps policy rep stream max_trial 0 st p st' h

/-- C3 witness: the characterization applied to a concrete run of `get`
that returns a record after one trial. -/
theorem c3_valid_characterization_witness :
    validRecord (randAssemble trivialDraw) = true :=
  c3_valid_characterization.2 (1/10) "random" false 1 ⟨[], []⟩
    (fun _ => trivialDraw) (randAssemble trivialDraw)
    ⟨[], [randAssemble trivialDraw]⟩ rfl

/-! ## C8 -/

/-- C8: `auto_schedule` fails for every non-cuda target; it fails with
the reduce-op error whenever some reduction-bearing op other than the
mapped main op exists; and with a cuda target and reductions only at the
main op it raises neither error. -/
theorem c8_auto_schedule_errors (target : String) (ts : TransformStateModel) :
    (target ≠ "cuda" → exceptIsOk (auto_schedule target ts) = false)
    ∧ (∀ (m : ℕ) (op : AOp),
        (ts.main_op_map.map Prod.snd).getLast? = some m →
        op ∈ ts.target_dag_ops → 0 < op.num_reduce_axis → op.id ≠ m →
        auto_schedule target ts =
          .error "We do not support scheduling for reduce op which is not main op.")
    ∧ (∀ m : ℕ,
        (ts.main_op_map.map Prod.snd).getLast? = some m →
        (∀ op ∈ ts.target_dag_ops, 0 < op.num_reduce_axis → op.id = m) →
        target = "cuda" →
        auto_schedule target ts = .ok ()) := by
  refine ⟨?_, ?_, ?_⟩
  · intro hne
    unfold auto_schedule
    cases hl : (ts.main_op_map.map Prod.snd).getLast? with
    | none => rfl
    | some m =>
      cases hf : ts.target_dag_ops.find?
          (fun op => decide (0 < op.num_reduce_axis) && decide (op.id ≠ m)) with
      | some a =>
        simp only [ne_eq, decide_not] at hf
        simp [hf, exceptIsOk]
      | none =>
        simp only [hf]
        rw [if_neg hne]
        rfl
  · intro m op hl hmem hred hne
    unfold auto_schedule
    rw [hl]
    cases hf : ts.target_dag_ops.find?
        (fun op => decide (0 < op.num_reduce_axis) && decide (op.id ≠ m)) with
    | some a =>
      simp only [ne_eq, decide_not] at hf
      simp [hf]
    | none =>
      exfalso
      have := List.find?_eq_none.mp hf op hmem
      simp only [Bool.and_eq_true, decide_eq_true_eq] at this
      exact this ⟨hred, hne⟩
  · intro m hl hall hcuda
    unfold auto_schedule
    rw [hl]
    have hf : ts.target_dag_ops.find?
        (fun op => decide (0 < op.num_reduce_axis) && decide (op.id ≠ m)) = none := by
      apply List.find?_eq_none.mpr
      intro op hop
      simp only [Bool.and_eq_true, decide_eq_true_eq, not_and]
      intro hred
      exact fun hne => hne (hall op hop hred)
    simp only [hf]
    rw [if_pos hcuda]

/-- C8 witness: the three cases at concrete inputs: a non-cuda target
fails; a second reduction op (id 6) besides the main op (id 5) fails;
a single-reduction graph with a cuda target passes. -/
theorem c8_auto_schedule_errors_witness :
    exceptIsOk (auto_schedule "opencl" ⟨[(0, 0)], [⟨0, 1⟩]⟩) = false
    ∧ auto_schedule "cuda" ⟨[(0, 5)], [⟨5, 1⟩, ⟨6, 2⟩]⟩ =
        .error "We do not support scheduling for reduce op which is not main op."
    ∧ auto_schedule "cuda" ⟨[(0, 5)], [⟨5, 1⟩, ⟨6, 0⟩]⟩ = .ok () :=
  ⟨(c8_auto_schedule_errors "opencl" ⟨[(0, 0)], [⟨0, 1⟩]⟩).1 (by decide),
   (c8_auto_schedule_errors "cuda" ⟨[(0, 5)], [⟨5, 1⟩, ⟨6, 2⟩]⟩).2.1 5 ⟨6, 2⟩
     rfl (by decide) (by decide) (by decide),
   (c8_auto_schedule_errors "cuda" ⟨[(0, 5)], [⟨5, 1⟩, ⟨6, 0⟩]⟩).2.2 5
     rfl (by decide) rfl⟩

/-! ## C10 -/

theorem trialOnce_q_empty (eps : ℚ) (rep : Bool) (st : GenState) (d : TrialDraw)
    (h : st.entries = []) :
    trialOnce eps "q" rep st d = trialOnce eps "random" rep st d := by
  unfold trialOnce
  rw [if_pos (Or.inr h), if_pos (Or.inl rfl)]

theorem getLoop_q_empty (eps : ℚ) (rep : Bool) (stream : ℕ → TrialDraw) :
    ∀ (n i : ℕ) (st : GenState), st.entries = [] →
      getLoop eps "q" rep stream st i n = getLoop eps "random" rep stream st i n := by
  intro n
  induction n with
  | zero => intro i st h; rfl
  | succ n ih =>
    intro i st h
    unfold getLoop
    rw [trialOnce_q_empty eps rep st (stream i) h]
    cases ht : trialOnce eps "random" rep st (stream i) with
    | error e => rfl
    | ok t =>
      cases t with
      | accepted q => rfl
      | rejected => exact ih (i + 1) st h
      | immediate o => cases o <;> rfl

/-- C10: with an empty archive, `get` with policy `"q"` behaves exactly
as policy `"random"`: the guard `policy == "random" or not self.entries`
routes every trial through the uniform random branch, so the archive is
never consulted and no exploitation path is taken. -/
theorem c10_q_policy_empty_archive (eps : ℚ) (rep : Bool) (max_trial : ℕ)
    (st : GenState) (stream : ℕ → TrialDraw) (h : st.entries = []) :
    get eps "q" rep max_trial st stream = get eps "random" rep max_trial st stream :=
  getLoop_q_empty eps rep stream max_trial 0 st h

/-- C10 witness: the equivalence at a concrete empty-archive state. -/
theorem c10_q_policy_empty_archive_witness :
    get (1/10) "q" false 2 ⟨[], []⟩ (fun _ => trivialDraw) =
      get (1/10) "random" false 2 ⟨[], []⟩ (fun _ => trivialDraw) :=
  c10_q_policy_empty_archive (1/10) false 2 ⟨[], []⟩ (fun _ => trivialDraw) rfl

/-! ## C1 and C9 -/

theorem getLoop_exhaust (eps : ℚ) (policy : String) (rep : Bool)
    (stream : ℕ → TrialDraw) :
    ∀ (n i : ℕ) (st : GenState),
      (∀ j, j < n → trialOnce eps policy rep st (stream (i + j)) = .ok .rejected) →
      getLoop eps policy rep stream st i n =
        match st.entries with
        | [] => .error "IndexError: list index out of range"
        | e :: _ => .ok (.entry e, st) := by
  intro n
  induction n with
  | zero => intro i st _; rfl
  | succ n ih =>
    intro i st h
    have h0 := h 0 (Nat.succ_pos n)
    rw [Nat.add_zero] at h0
    unfold getLoop
    rw [h0]
    exact ih (i + 1) st (fun j hj => by
      have hx := h (j + 1) (by omega)
      rwa [show i + (j + 1) = i + 1 + j by omega] at hx)

/-- C1 (amended): for every policy and every sequence of draws, if the
`get` loop rejects every candidate for all of `max_trial` trials, the
call falls back to `self.entries[0]`: it returns the best archived entry
when the archive is nonempty, and raises IndexError when the archive is
empty (the source has no path returning the first generated
candidate). -/
theorem c1_exhaustion_fallback (eps : ℚ) (policy : String) (rep : Bool)
    (max_trial : ℕ) (st : GenState) (stream : ℕ → TrialDraw)
    (h : ∀ j, j < max_trial → trialOnce eps policy rep st (stream j) = .ok .rejected) :
    get eps policy rep max_trial st stream =
      match st.entries with
      | [] => .error "IndexError: list index out of range"
      | e :: _ => .ok (.entry e, st) :=
  getLoop_exhaust eps policy rep stream max_trial 0 st
    (fun j hj => by simpa using h j hj)

/-- C1 witness: a run in which every candidate fails the warp-validity
check falls back to the archived best entry. -/
theorem c1_exhaustion_fallback_witness :
    get (1/10) "random" false 1 ⟨[archivedEntry], []⟩ (fun _ => invalidDraw) =
      .ok (.entry archivedEntry, ⟨[archivedEntry], []⟩) :=
  c1_exhaustion_fallback (1/10) "random" false 1 ⟨[archivedEntry], []⟩
    (fun _ => invalidDraw)
    (fun j hj => by
      have hj0 : j = 0 := by omega
      subst hj0
      rfl)

/-- C1 counterexample: with an empty archive and every candidate
invalid, `get` raises IndexError at the fallback `self.entries[0]` — it
does not return the first generated candidate. -/
theorem c1_empty_archive_counterexample :
    get (1/10) "random" false 3 ⟨[], []⟩ (fun _ => invalidDraw) =
      .error "IndexError: list index out of range"
    ∧ (Except.error "IndexError: list index out of range" :
        Except String (GetOutcome × GenState)) ≠
      .ok (.record (randAssemble invalidDraw), ⟨[], [randAssemble invalidDraw]⟩) :=
  ⟨rfl, by decide⟩

/-- C9 (amended): with a singleton choice space (every draw yields the
same record `p`, valid under the warp check), the first
`get(policy="random", repeat=False)` call returns `p`; a later call that
finds `p` already visited never returns it again: it runs out of trials
and falls back to the archive, raising IndexError when the archive is
empty and returning the archived best entry otherwise. -/
theorem c9_singleton_space_amended (eps : ℚ) (n : ℕ) (st : GenState)
    (p : Params) (stream : ℕ → TrialDraw)
    (hdraw : ∀ j, randAssemble (stream j) = p)
    (hval : validRecord p = true) :
    (p ∉ st.visited → 0 < n →
      get eps "random" false n st stream =
        .ok (.record p, { st with visited := p :: st.visited }))
    ∧ (p ∈ st.visited →
      get eps "random" false n st stream =
        match st.entries with
        | [] => .error "IndexError: list index out of range"
        | e :: _ => .ok (.entry e, st)) := by
  constructor
  · intro hnv hn
    obtain ⟨m, rfl⟩ : ∃ m, n = m + 1 := ⟨n - 1, by omega⟩
    have ht : trialOnce eps "random" false st (stream 0) = .ok (.accepted p) := by
      unfold trialOnce
      rw [if_pos (Or.inl rfl), hdraw 0]
      unfold checkRecord
      rw [if_pos (Or.inr hnv), if_pos hval]
    show getLoop eps "random" false stream st 0 (m + 1) = _
    unfold getLoop
    rw [ht]
  · intro hv
    exact getLoop_exhaust eps "random" false stream n 0 st (fun j hj => by
      unfold trialOnce
      rw [if_pos (Or.inl rfl), hdraw (0 + j)]
      unfold checkRecord
      rw [if_neg (by
        intro hc
        rcases hc with hc | hc
        · exact absurd hc (by decide)
        · exact hc hv)])

/-- C9 witness: the amended behavior with a nonempty archive: the first
call returns the singleton record, the repeat call returns the archived
best entry. -/
theorem c9_singleton_space_amended_witness :
    get (1/10) "random" false 3 ⟨[archivedEntry], []⟩ (fun _ => trivialDraw) =
      .ok (.record singletonRecord, ⟨[archivedEntry], [singletonRecord]⟩)
    ∧ get (1/10) "random" false 3 ⟨[archivedEntry], [singletonRecord]⟩
        (fun _ => trivialDraw) =
      .ok (.entry archivedEntry, ⟨[archivedEntry], [singletonRecord]⟩) :=
  ⟨(c9_singleton_space_amended (1/10) 3 ⟨[archivedEntry], []⟩ singletonRecord
      (fun _ => trivialDraw) (fun _ => rfl) rfl).1 (by decide) (by omega),
   (c9_singleton_space_amended (1/10) 3 ⟨[archivedEntry], [singletonRecord]⟩
      singletonRecord (fun _ => trivialDraw) (fun _ => rfl) rfl).2 (by decide)⟩

/-- C9 counterexample: with an empty archive, the first call returns the
single choice but the second call raises IndexError instead of returning
the same choice again. -/
theorem c9_singleton_space_counterexample :
    get (1/10) "random" false 2 ⟨[], []⟩ (fun _ => trivialDraw) =
      .ok (.record singletonRecord, ⟨[], [singletonRecord]⟩)
    ∧ get (1/10) "random" false 2 ⟨[], [singletonRecord]⟩ (fun _ => trivialDraw) =
      .error "IndexError: list index out of range" :=
  ⟨rfl, rfl⟩

/-! ## C2 -/

/-- C2 (the code contradicts the claim): at a failing input with two
equal-cost archive entries, `sa_select_entry` draws `choice = 1` at the
first loop iteration, the acceptance test `np.random.random() <
ps[choice]` passes (the weight is `exp(0) = 1 > 0`), yet the function
returns `cand[0]` — `cand[i]` with the loop counter `i = 0` — instead of
the sampled entry `cand[1]`. -/
theorem c2_sa_select_entry_returns_loop_counter_entry :
    sa_select_entry [saEntryA, saEntryB] saBugDraws 20 = .ok saEntryA
    ∧ pyNlargest (min 20 ([saEntryA, saEntryB] : List (Entry Params)).length)
        [saEntryA, saEntryB] = [saEntryA, saEntryB]
    ∧ saBugDraws 0 = (1, 0)
    ∧ saEntryA ≠ saEntryB := by
  refine ⟨?_, by decide, rfl, by decide⟩
  have hc : pyNlargest (min 20 ([saEntryA, saEntryB] : List (Entry Params)).length)
      [saEntryA, saEntryB] = [saEntryA, saEntryB] := by decide
  unfold sa_select_entry
  rw [if_pos (show ([saEntryA, saEntryB] : List (Entry Params)).length > 0 by decide)]
  rw [hc]
  show saLoop [saEntryA, saEntryB]
      ([saEntryA, saEntryB].map (fun x => calculate_p x.value saEntryA.value))
      saBugDraws 0 20 = .ok saEntryA
  unfold saLoop
  rw [if_pos (by
    show ((saBugDraws 0).2 : ℝ) <
      (([saEntryA, saEntryB].map (fun x => calculate_p x.value saEntryA.value)).getD
        ((saBugDraws 0).1 % 2) 0)
    have h1 : (saBugDraws 0).1 % 2 = 1 := by decide
    rw [h1]
    show ((0 : ℚ) : ℝ) < calculate_p saEntryB.value saEntryA.value
    rw [Rat.cast_zero]
    exact Real.exp_pos _)]
  rfl

/-! ## C4 -/

/-- C4: `apply` is a deterministic function of the graph, the recipe
data and the `Params` argument: whatever state and params two appliers
over the same construction data carry from earlier calls, `apply`
resets the per-apply `State` to the empty state (and overwrites
`params`) before the primitive pipeline runs, so both calls produce the
same schedule trace and the same final applier. -/
theorem c4_apply_deterministic_state_reset
    (dag : ComputeDag) (mo oo moid ooid : ℕ) (rstage : RecipeStage)
    (st1 st2 : State) (p1 p2 : Params) (sch : Schedule) (params : Params) :
    apply ⟨dag, mo, oo, moid, ooid, rstage, st1, p1⟩ sch params =
      apply ⟨dag, mo, oo, moid, ooid, rstage, st2, p2⟩ sch params := rfl

/-! ## C7 -/

theorem splitChain_triple (op : ℕ) (iv : Axis) (a b c : ℕ) :
    splitChain op iv [a, b, c] =
      ([Axis.splitOuter (Axis.splitOuter iv c) b,
        Axis.splitInner (Axis.splitOuter iv c) b,
        Axis.splitInner iv c],
       [SchedPrim.split op iv c, SchedPrim.split op (Axis.splitOuter iv c) b]) := rfl

theorem foldl_min_replicate3 (m : ℕ) :
    (List.replicate m (3 : ℕ)).foldl min 3 = 3 := by
  induction m with
  | zero => rfl
  | succ m ih => simpa [List.replicate_succ] using ih

theorem pyZipStar_triple {β : Type} (f g h : β → Axis) (x : β) (xs : List β) :
    pyZipStar ((x :: xs).map (fun t => [f t, g t, h t])) =
      [(x :: xs).map f, (x :: xs).map g, (x :: xs).map h] := by
  have hmin : ((((x :: xs).map (fun t => [f t, g t, h t])).map List.length).min?)
      = some 3 := by
    simp only [List.map_cons, List.map_map, List.min?]
    congr 1
    have hlen : ∀ ys : List β, (ys.map (List.length ∘ fun t => [f t, g t, h t]))
        = List.replicate ys.length 3 := by
      intro ys
      induction ys with
      | nil => rfl
      | cons a l ih => simp [List.replicate_succ, ih, Function.comp]
    rw [hlen]
    exact foldl_min_replicate3 xs.length
  unfold pyZipStar
  rw [hmin]
  show (List.range 3).map _ = _
  simp only [List.range_succ, List.range_zero, List.nil_append, List.map_cons,
    List.map_nil, List.map_append, List.singleton_append, List.map_map]
  simp [Function.comp]

theorem pySliceToNeg_pos {α : Type} (l : List α) {n : ℕ} (h : n ≠ 0) :
    pySliceToNeg l n = l.take (l.length - n) := if_neg h

theorem pySliceFromNeg_pos {α : Type} (l : List α) {n : ℕ} (h : n ≠ 0) :
    pySliceFromNeg l n = l.drop (l.length - n) := if_neg h

theorem pyGetNeg_suffix {α : Type} [Inhabited α] (xs ys : List α) (hy : ys ≠ []) :
    pyGetNeg (xs ++ ys) ys.length = .ok (ys.getD 0 default) := by
  have h0 : ys.length ≠ 0 := by
    simpa [List.length_eq_zero] using hy
  unfold pyGetNeg
  rw [if_neg h0]
  have hle : ys.length ≤ (xs ++ ys).length := by simp
  rw [if_pos hle]
  have hidx : (xs ++ ys).length - ys.length = xs.length := by simp
  rw [hidx]
  congr 1
  rw [List.getD_eq_getElem?_getD, List.getD_eq_getElem?_getD,
    List.getElem?_append_right (le_refl xs.length)]
  simp

theorem except_bind_ok {ε α β : Type} (a : α) (f : α → Except ε β) :
    (Except.ok a : Except ε α) >>= f = f a := rfl

theorem tiling_main_eval
    (c : ApplierCore) (p : Params) (op_id : ℕ) (st : State) (sch : Schedule)
    (sp : List Axis) (x0 : Axis × ℕ × ℕ × ℕ) (xs : List (Axis × ℕ × ℕ × ℕ))
    (rr : List Axis) (rs : ℕ) (pos : Axis)
    (hax : (c.target_dag.op_info c.main_op).axis = sp)
    (hpart : splitReserveReduce (c.target_dag.op_info c.main_op).reduce_axis
        c.recipe_stage.main_op_reserve_reduce_axis = (rr, (x0 :: xs).map Prod.fst))
    (hfac : get_main_op_reduce_axis_factors p ((x0 :: xs).map Prod.fst).length
        = .ok ((x0 :: xs).map (fun t => [t.2.1, t.2.2.1, t.2.2.2])))
    (hrs : assocGet c.recipe_stage.reserve_inner_axis_count c.main_op = some rs)
    (hpos : get_output_op_third_innermost_last_axis st = .ok pos)
    (hrs0 : rs ≠ 0) (hrsle : rs ≤ sp.length) :
    tiling c p op_id c.main_op st sch = .ok
      ({ st with
          main_op_reduce_axis :=
            [(x0 :: xs).map (fun t => Axis.splitOuter (Axis.splitOuter t.1 t.2.2.2) t.2.2.1),
             (x0 :: xs).map (fun t => Axis.splitInner (Axis.splitOuter t.1 t.2.2.2) t.2.2.1),
             (x0 :: xs).map (fun t => Axis.splitInner t.1 t.2.2.2),
             rr],
          tensorize_iter := assocUpd st.tensorize_iter c.main_op
            ((sp.drop (sp.length - rs)).getD 0 default) },
       sch ++ [SchedPrim.computeAt c.main_op c.output_op pos]
         ++ ((x0 :: xs).map (fun t =>
              [SchedPrim.split c.main_op t.1 t.2.2.2,
               SchedPrim.split c.main_op (Axis.splitOuter t.1 t.2.2.2) t.2.2.1])).flatten
         ++ [SchedPrim.reorder c.main_op
              ((x0 :: xs).map (fun t => Axis.splitOuter (Axis.splitOuter t.1 t.2.2.2) t.2.2.1)
               ++ ((x0 :: xs).map (fun t => Axis.splitInner (Axis.splitOuter t.1 t.2.2.2) t.2.2.1)
               ++ (sp.take (sp.length - rs)
               ++ ((x0 :: xs).map (fun t => Axis.splitInner t.1 t.2.2.2)
               ++ (sp.drop (sp.length - rs) ++ rr)))))]) := by
  have hD : (sp.drop (sp.length - rs)).length = rs := by
    rw [List.length_drop]
    omega
  have hDne : sp.drop (sp.length - rs) ≠ [] := by
    intro hc
    rw [← List.length_eq_zero] at hc
    omega
  unfold tiling
  rw [if_pos rfl]
  simp only [hax, hrs, hpart, hfac, hpos, exceptOfOption, except_bind_ok,
    List.zip_map', List.map_map, pySliceToNeg_pos _ hrs0, pySliceFromNeg_pos _ hrs0]
  rw [show List.map ((Prod.fst ∘ fun x => splitChain c.main_op x.1 x.2) ∘ fun a =>
        (a.1, [a.2.1, a.2.2.1, a.2.2.2])) (x0 :: xs)
      = (x0 :: xs).map (fun t => [Axis.splitOuter (Axis.splitOuter t.1 t.2.2.2) t.2.2.1,
          Axis.splitInner (Axis.splitOuter t.1 t.2.2.2) t.2.2.1,
          Axis.splitInner t.1 t.2.2.2]) from rfl]
  rw [show List.map ((Prod.snd ∘ fun x => splitChain c.main_op x.1 x.2) ∘ fun a =>
        (a.1, [a.2.1, a.2.2.1, a.2.2.2])) (x0 :: xs)
      = (x0 :: xs).map (fun t => [SchedPrim.split c.main_op t.1 t.2.2.2,
          SchedPrim.split c.main_op (Axis.splitOuter t.1 t.2.2.2) t.2.2.1]) from rfl]
  rw [pyZipStar_triple]
  generalize hL0 : (x0 :: xs).map
    (fun t => Axis.splitOuter (Axis.splitOuter t.1 t.2.2.2) t.2.2.1) = L0
  generalize hL1 : (x0 :: xs).map
    (fun t => Axis.splitInner (Axis.splitOuter t.1 t.2.2.2) t.2.2.1) = L1
  generalize hL2 : (x0 :: xs).map (fun t => Axis.splitInner t.1 t.2.2.2) = L2
  generalize hT : sp.take (sp.length - rs) = T
  generalize hDg : sp.drop (sp.length - rs) = D
  rw [hDg] at hD hDne
  rw [show ([L0, L1, L2] ++ [rr] : List (List Axis)) = [L0, L1, L2, rr] from rfl]
  rw [show ([L0, L1, L2, rr] : List (List Axis)).length = 4 from rfl]
  rw [if_pos (show (4 : ℕ) > 3 by norm_num)]
  rw [show (4 - 2 : ℕ) = 2 from rfl, show (4 - 1 : ℕ) = 3 from rfl]
  rw [show List.take 2 ([L0, L1, L2, rr] : List (List Axis)) = [L0, L1] from rfl]
  rw [show List.drop 2 (List.take 3 ([L0, L1, L2, rr] : List (List Axis))) = [L2] from rfl]
  rw [show List.drop 3 ([L0, L1, L2, rr] : List (List Axis)) = [rr] from rfl]
  rw [show (([L0, L1] ++ [T] ++ [L2] ++ [D] ++ [rr] : List (List Axis))).flatten
      = L0 ++ (L1 ++ (T ++ (L2 ++ (D ++ (rr ++ []))))) from rfl]
  rw [List.append_nil]
  rw [show L0 ++ (L1 ++ (T ++ (L2 ++ (D ++ rr))))
      = (L0 ++ (L1 ++ (T ++ L2))) ++ (D ++ rr) by simp [List.append_assoc]]
  rw [show rs + rr.length = (D ++ rr).length by simp [hD]]
  rw [pyGetNeg_suffix (L0 ++ (L1 ++ (T ++ L2))) (D ++ rr)
    (fun hc => hDne (List.append_eq_nil.mp hc).1)]
  rw [except_bind_ok]
  rw [List.getD_append _ _ _ _ (by omega)]

/-- C7 (amended): in `tiling` applied to the Main operation with 3-way
reduction splits, the reordered loop-axis sequence is exactly: the outer
two reduction-tile levels, then the outer spatial block, then the third
reduction-tile level, then the reserved spatial axes, then the reserved
reduction axes; and the recorded tensorize axis is the outermost
reserved spatial axis — the first axis OF the reserved spatial-and-
reduction block (`ordered_axis[-(reserve_spatial_num +
reserve_reduce_num)]`), not the axis just outside that block. -/
theorem c7_tiling_main_order_amended
    (c : ApplierCore) (p : Params) (op_id : ℕ) (st : State) (sch : Schedule)
    (sp : List Axis) (x0 : Axis × ℕ × ℕ × ℕ) (xs : List (Axis × ℕ × ℕ × ℕ))
    (rr : List Axis) (rs : ℕ) (pos : Axis) (st' : State) (sch' : Schedule)
    (hax : (c.target_dag.op_info c.main_op).axis = sp)
    (hpart : splitReserveReduce (c.target_dag.op_info c.main_op).reduce_axis
        c.recipe_stage.main_op_reserve_reduce_axis = (rr, (x0 :: xs).map Prod.fst))
    (hfac : get_main_op_reduce_axis_factors p ((x0 :: xs).map Prod.fst).length
        = .ok ((x0 :: xs).map (fun t => [t.2.1, t.2.2.1, t.2.2.2])))
    (hrs : assocGet c.recipe_stage.reserve_inner_axis_count c.main_op = some rs)
    (hpos : get_output_op_third_innermost_last_axis st = .ok pos)
    (hrs0 : rs ≠ 0) (hrsle : rs ≤ sp.length)
    (hrun : tiling c p op_id c.main_op st sch = .ok (st', sch')) :
    sch' = sch ++ [SchedPrim.computeAt c.main_op c.output_op pos]
         ++ ((x0 :: xs).map (fun t =>
              [SchedPrim.split c.main_op t.1 t.2.2.2,
               SchedPrim.split c.main_op (Axis.splitOuter t.1 t.2.2.2) t.2.2.1])).flatten
         ++ [SchedPrim.reorder c.main_op
              ((x0 :: xs).map (fun t => Axis.splitOuter (Axis.splitOuter t.1 t.2.2.2) t.2.2.1)
               ++ ((x0 :: xs).map (fun t => Axis.splitInner (Axis.splitOuter t.1 t.2.2.2) t.2.2.1)
               ++ (sp.take (sp.length - rs)
               ++ ((x0 :: xs).map (fun t => Axis.splitInner t.1 t.2.2.2)
               ++ (sp.drop (sp.length - rs) ++ rr)))))]
    ∧ assocGet st'.tensorize_iter c.main_op =
        some ((sp.drop (sp.length - rs)).getD 0 default)
    ∧ st'.main_op_reduce_axis =
        [(x0 :: xs).map (fun t => Axis.splitOuter (Axis.splitOuter t.1 t.2.2.2) t.2.2.1),
         (x0 :: xs).map (fun t => Axis.splitInner (Axis.splitOuter t.1 t.2.2.2) t.2.2.1),
         (x0 :: xs).map (fun t => Axis.splitInner t.1 t.2.2.2),
         rr] := by
  rw [tiling_main_eval c p op_id st sch sp x0 xs rr rs pos hax hpart hfac hrs hpos
    hrs0 hrsle] at hrun
  have h1 := congrArg (fun r => match r with
    | Except.ok (pr : State × Schedule) => pr
    | Except.error _ => (empty_state, [])) hrun
  simp only [] at h1
  have hst : st' = { st with
      main_op_reduce_axis :=
        [(x0 :: xs).map (fun t => Axis.splitOuter (Axis.splitOuter t.1 t.2.2.2) t.2.2.1),
         (x0 :: xs).map (fun t => Axis.splitInner (Axis.splitOuter t.1 t.2.2.2) t.2.2.1),
         (x0 :: xs).map (fun t => Axis.splitInner t.1 t.2.2.2),
         rr],
      tensorize_iter := assocUpd st.tensorize_iter c.main_op
        ((sp.drop (sp.length - rs)).getD 0 default) } :=
    (congrArg Prod.fst h1).symm
  have hsch : sch' = sch ++ [SchedPrim.computeAt c.main_op c.output_op pos]
         ++ ((x0 :: xs).map (fun t =>
              [SchedPrim.split c.main_op t.1 t.2.2.2,
               SchedPrim.split c.main_op (Axis.splitOuter t.1 t.2.2.2) t.2.2.1])).flatten
         ++ [SchedPrim.reorder c.main_op
              ((x0 :: xs).map (fun t => Axis.splitOuter (Axis.splitOuter t.1 t.2.2.2) t.2.2.1)
               ++ ((x0 :: xs).map (fun t => Axis.splitInner (Axis.splitOuter t.1 t.2.2.2) t.2.2.1)
               ++ (sp.take (sp.length - rs)
               ++ ((x0 :: xs).map (fun t => Axis.splitInner t.1 t.2.2.2)
               ++ (sp.drop (sp.length - rs) ++ rr)))))] :=
    (congrArg Prod.snd h1).symm
  refine ⟨hsch, ?_, ?_⟩
  · rw [hst]
    simp [assocGet, assocUpd]
  · rw [hst]

/-- C7 witness: the amended statement at the concrete Main operation of
`tilingCore` (two spatial axes, one 3-way-split reduce axis, one
reserved reduce axis, one reserved spatial axis). -/
theorem c7_tiling_main_order_amended_witness :
    tilingMainSch =
      [SchedPrim.computeAt 0 1 (Axis.base 1 false 10),
       SchedPrim.split 0 (Axis.base 0 true 0) 2,
       SchedPrim.split 0 (Axis.splitOuter (Axis.base 0 true 0) 2) 2,
       SchedPrim.reorder 0
         [Axis.splitOuter (Axis.splitOuter (Axis.base 0 true 0) 2) 2,
          Axis.splitInner (Axis.splitOuter (Axis.base 0 true 0) 2) 2,
          Axis.base 0 false 0,
          Axis.splitInner (Axis.base 0 true 0) 2,
          Axis.base 0 false 1,
          Axis.base 0 true 1]]
    ∧ assocGet tilingMainSt.tensorize_iter 0 = some (Axis.base 0 false 1)
    ∧ tilingMainSt.main_op_reduce_axis =
        [[Axis.splitOuter (Axis.splitOuter (Axis.base 0 true 0) 2) 2],
         [Axis.splitInner (Axis.splitOuter (Axis.base 0 true 0) 2) 2],
         [Axis.splitInner (Axis.base 0 true 0) 2],
         [Axis.base 0 true 1]] :=
  c7_tiling_main_order_amended tilingCore tilingParams 0 tilingState []
    [Axis.base 0 false 0, Axis.base 0 false 1]
    (Axis.base 0 true 0, 2, 2, 2) [] [Axis.base 0 true 1] 1
    (Axis.base 1 false 10) tilingMainSt tilingMainSch
    rfl rfl rfl rfl rfl (by decide) (by decide) rfl

/-- C7 counterexample: the recorded tensorize axis at the concrete Main
operation is the outermost reserved spatial axis `Axis.base 0 false 1`
(the first axis inside the reserved block of the reorder), not the axis
just outside the reserved spatial and reduction axes, which is the third
reduction-tile level's axis `Axis.splitInner (Axis.base 0 true 0) 2`. -/
theorem c7_tensorize_axis_counterexample :
    tiling tilingCore tilingParams 0 0 tilingState [] =
      .ok (tilingMainSt, tilingMainSch)
    ∧ SchedPrim.reorder 0
        [Axis.splitOuter (Axis.splitOuter (Axis.base 0 true 0) 2) 2,
         Axis.splitInner (Axis.splitOuter (Axis.base 0 true 0) 2) 2,
         Axis.base 0 false 0,
         Axis.splitInner (Axis.base 0 true 0) 2,
         Axis.base 0 false 1,
         Axis.base 0 true 1] ∈ tilingMainSch
    ∧ assocGet tilingMainSt.tensorize_iter 0 = some (Axis.base 0 false 1)
    ∧ Axis.base 0 false 1 ≠ Axis.splitInner (Axis.base 0 true 0) 2 :=
  ⟨rfl, by decide, rfl, by decide⟩

end AMOS
